import Mathlib

/-!
Shallow embedding of the videopy backend (src/backend/face_detector.py and
src/backend/app.py) and proofs of the specification claims about it.

Modelling conventions:
* Python floats (fps, mtimes) are modelled as `Rat`; the divisions the code
  performs raise `ZeroDivisionError` in Python when the divisor is zero, so the
  embedded loop returns `Except.error PyErr.zeroDivision` in exactly the places
  the source divides (progress by `frame_count`, timestamp by `fps`).
* The OpenCV cascade classifier is an external black box: each decoded frame
  carries, as an oracle, the list of boxes `detectMultiScale` returns on its
  downscaled grayscale image (`smallDetections`).
* `str(timedelta(seconds=t))` only formats the number `t`; the timestamp field
  is modelled as the rational number of seconds `current_frame / fps`.
* File-system effects are threaded explicitly: the report file is a
  `ReportFile` value, `open(path, "w")` + `json.dump` is a truncate-then-write
  whose possible outcomes are an oracle (`WriteOutcome`).
-/

namespace Videopy

/-- A face bounding box `(x, y, w, h)`; `detectMultiScale` returns integer
coordinates at downscaled resolution. -/
structure Box where
  x : Int
  y : Int
  w : Int
  h : Int
deriving DecidableEq, Repr

/-- One decoded frame: its pixel dimensions and, as a detector oracle, the
boxes the cascade classifier returns on its half-resolution grayscale image. -/
structure Frame where
  height : Nat
  width : Nat
  smallDetections : List Box
deriving DecidableEq, Repr

/-- A video as seen through `cv2.VideoCapture`: whether `isOpened()` holds,
the metadata properties `CAP_PROP_FPS` and `CAP_PROP_FRAME_COUNT`, and the
actual finite stream of decodable frames (`cap.read()` yields these in order,
then returns `ret = False`).  The metadata `frame_count` is a container header
value and need not equal `frames.length`. -/
structure Video where
  isOpened : Bool
  fps : Rat
  frame_count : Int
  frames : List Frame
deriving DecidableEq, Repr

/-- One element of the report's `face_detections` list
(`{"frame": ..., "timestamp": ..., "faces": [...]}`). -/
structure FaceEntry where
  frame : Nat
  timestamp : Rat
  faces : List Box
deriving DecidableEq, Repr

/-- The report's `metadata` object. -/
structure Metadata where
  total_frames : Int
  fps : Rat
  processed_frames : Nat
  step_size : Nat
deriving DecidableEq, Repr

/-- The JSON document `process_video` persists. -/
structure Report where
  face_detections : List FaceEntry
  metadata : Metadata
deriving DecidableEq, Repr

/-- Exceptions the embedded code can raise. -/
inductive PyErr where
  | zeroDivision
deriving DecidableEq, Repr

/-- Content of the report file on disk.  `truncated` stands for the state
`open(output_path, "w")` + a failed `json.dump` leaves behind: the file was
truncated and holds at most a proper prefix of the serialized report. -/
inductive ReportFile where
  | absent
  | complete (r : Report)
  | truncated
deriving DecidableEq, Repr

/-- Outcome oracle for the persistence step `with open(output_path, "w") as f:
json.dump(...)`.  `openFail`: `open` itself raises, the file is untouched;
`dumpFail`: `open` truncated the file and `json.dump` raised mid-write. -/
inductive WriteOutcome where
  | ok
  | openFail
  | dumpFail
deriving DecidableEq, Repr

/-- The process-wide state `process_video` reads and mutates: the
`FaceDetector._processing` class flag and the report file at `output_path`. -/
structure SessState where
  processing : Bool
  reportFile : ReportFile
deriving DecidableEq, Repr

/-- `frame_step = 15` (face_detector.py line 73). -/
def frame_step : Nat := 15

/-- The sampling policy used by the loop guard
`if current_frame % frame_step == 0:` (face_detector.py line 81). -/
def is_selected (frame_index stride : Nat) : Bool :=
  frame_index % stride == 0

/-- `int(n * 0.5)` for a nonnegative integer pixel dimension `n`: the float
product is exact, so truncation gives `n / 2` (floor division). -/
def smallDim (n : Nat) : Nat := n / 2

/-- Rescaling one detector box from half resolution back to the original:
`int(x / scale_factor)` with `scale_factor = 0.5` and integer `x` is exactly
`2 * x` (face_detector.py lines 106-107). -/
def scaleBox (b : Box) : Box :=
  ⟨2 * b.x, 2 * b.y, 2 * b.w, 2 * b.h⟩

/-- The `while True: ret, frame = cap.read()` loop of `process_video`
(face_detector.py lines 75-119), parameterised by the metadata values and the
stride.  Arguments: remaining frames, `current_frame`, accumulated
`face_data`.  Returns the final `(face_data, current_frame)` or the first
exception:
* on a sampled frame with `current_frame % (frame_step * 10) == 0`, the code
  computes `(current_frame / frame_count) * 100`, raising `ZeroDivisionError`
  when `frame_count = 0`;
* then `timedelta(seconds=current_frame/fps)` raises when `fps = 0`;
* detection runs on the downscaled frame (oracle `smallDetections`), boxes are
  rescaled by `scaleBox`, and an entry is appended iff `len(faces) > 0`. -/
def processFrames (fps : Rat) (fc : Int) (step : Nat) :
    List Frame → Nat → List FaceEntry → Except PyErr (List FaceEntry × Nat)
  | [], i, acc => .ok (acc, i)
  | f :: rest, i, acc =>
    if is_selected i step then
      if i % (step * 10) = 0 ∧ fc = 0 then
        .error .zeroDivision
      else if fps = 0 then
        .error .zeroDivision
      else
        let faces := f.smallDetections.map scaleBox
        if 0 < faces.length then
          processFrames fps fc step rest (i + 1) (acc ++ [⟨i, (i : Rat) / fps, faces⟩])
        else
          processFrames fps fc step rest (i + 1) acc
    else
      processFrames fps fc step rest (i + 1) acc

/-- The body of `process_video` once the `_processing` flag has been taken
(face_detector.py lines 58-142): open the capture, iterate, persist.  Returns
the boolean result and the final report-file state.  Every raised exception is
caught by the `except Exception` handler, which logs and returns `False`. -/
def run_session (v : Video) (w : WriteOutcome) (file0 : ReportFile) :
    Bool × ReportFile :=
  if ¬ v.isOpened then
    (false, file0)
  else
    match processFrames v.fps v.frame_count frame_step v.frames 0 [] with
    | .error _ => (false, file0)
    | .ok (face_data, current_frame) =>
      match w with
      | .ok =>
        (true, .complete ⟨face_data,
          ⟨v.frame_count, v.fps, current_frame, frame_step⟩⟩)
      | .openFail => (false, file0)
      | .dumpFail => (false, .truncated)

/-- `FaceDetector.process_video` (face_detector.py lines 50-142).  If the
`_processing` flag is set, return `False` at once with no effect; otherwise
set the flag, run the session, and clear the flag on every exit path (lines
62, 136, 141). -/
def process_video (st : SessState) (v : Video) (w : WriteOutcome) :
    Bool × SessState :=
  if st.processing then
    (false, st)
  else
    let entered : SessState := ⟨true, st.reportFile⟩
    let r := run_session v w entered.reportFile
    (r.1, ⟨false, r.2⟩)

/-- `FaceDetector.should_process_video` (face_detector.py lines 36-48).  Files
are modelled by their modification time, `none` meaning the path does not
exist; the checks happen in source order: missing report, then missing video,
then the mtime comparison. -/
def should_process_video (video output : Option Rat) : Bool :=
  match output with
  | none => true
  | some data_mtime =>
    match video with
    | none => false
    | some video_mtime => decide (video_mtime > data_mtime)

/-- The list of frame indices the sampling policy selects over a run that
decodes `total` frames: the loop counts `current_frame` from `0` and invokes
the detector exactly when `is_selected` holds. -/
def sampledIndices (stride total : Nat) : List Nat :=
  (List.range total).filter (fun i => is_selected i stride)

/-- Detector boxes live inside the downscaled image: coordinates nonnegative
and the box contained in the `smallDim width × smallDim height` image that
`cv2.resize` produced. -/
abbrev smallBoxInBounds (b : Box) (w h : Nat) : Prop :=
  0 ≤ b.x ∧ 0 ≤ b.y ∧ 0 ≤ b.w ∧ 0 ≤ b.h ∧
    b.x + b.w ≤ (smallDim w : Int) ∧ b.y + b.h ≤ (smallDim h : Int)

/-- A box is inside the original `w × h` frame. -/
abbrev boxInBounds (b : Box) (w h : Nat) : Prop :=
  0 ≤ b.x ∧ 0 ≤ b.y ∧ 0 ≤ b.w ∧ 0 ≤ b.h ∧
    b.x + b.w ≤ (w : Int) ∧ b.y + b.h ≤ (h : Int)

/-- Structure of a successful run of the frame loop: the final frame counter
is the starting counter plus the number of decoded frames, and every emitted
face entry either was already accumulated or records a sampled in-range frame
index whose faces are the rescaled detector output of one of the frames. -/
theorem processFrames_spec (fps : Rat) (fc : Int) (step : Nat) :
    ∀ (frames : List Frame) (i : Nat) (acc fd : List FaceEntry) (n : Nat),
      processFrames fps fc step frames i acc = .ok (fd, n) →
      n = i + frames.length ∧
      ∀ e ∈ fd, e ∈ acc ∨
        (is_selected e.frame step = true ∧ i ≤ e.frame ∧
          e.frame < i + frames.length ∧
          ∃ f ∈ frames, e.faces = f.smallDetections.map scaleBox) := by
  intro frames
  induction frames with
  | nil =>
    intro i acc fd n h
    simp only [processFrames] at h
    injection h with h
    injection h with h1 h2
    subst h1; subst h2
    exact ⟨by simp, fun e he => Or.inl he⟩
  | cons f rest ih =>
    intro i acc fd n h
    simp only [processFrames] at h
    by_cases hsel : is_selected i step
    · rw [if_pos hsel] at h
      by_cases hfc : i % (step * 10) = 0 ∧ fc = 0
      · rw [if_pos hfc] at h; exact absurd h (by simp)
      · rw [if_neg hfc] at h
        by_cases hfps : fps = 0
        · rw [if_pos hfps] at h; exact absurd h (by simp)
        · rw [if_neg hfps] at h
          by_cases hlen : 0 < (f.smallDetections.map scaleBox).length
          · rw [if_pos hlen] at h
            obtain ⟨hn, hmem⟩ := ih (i + 1) _ fd n h
            refine ⟨by simp only [List.length_cons]; omega, fun e he => ?_⟩
            rcases hmem e he with hacc | ⟨h1, h2, h3, g, hg, hfaces⟩
            · rcases List.mem_append.mp hacc with hacc' | hself
              · exact Or.inl hacc'
              · have : e = ⟨i, (i : Rat) / fps, f.smallDetections.map scaleBox⟩ :=
                  List.mem_singleton.mp hself
                subst this
                exact Or.inr ⟨hsel, le_refl i, by simp only [List.length_cons]; omega,
                  f, List.mem_cons_self f rest, rfl⟩
            · exact Or.inr ⟨h1, by omega, by simp only [List.length_cons]; omega,
                g, List.mem_cons_of_mem f hg, hfaces⟩
          · rw [if_neg hlen] at h
            obtain ⟨hn, hmem⟩ := ih (i + 1) _ fd n h
            refine ⟨by simp only [List.length_cons]; omega, fun e he => ?_⟩
            rcases hmem e he with hacc | ⟨h1, h2, h3, g, hg, hfaces⟩
            · exact Or.inl hacc
            · exact Or.inr ⟨h1, by omega, by simp only [List.length_cons]; omega,
                g, List.mem_cons_of_mem f hg, hfaces⟩
    · rw [if_neg hsel] at h
      obtain ⟨hn, hmem⟩ := ih (i + 1) _ fd n h
      refine ⟨by simp only [List.length_cons]; omega, fun e he => ?_⟩
      rcases hmem e he with hacc | ⟨h1, h2, h3, g, hg, hfaces⟩
      · exact Or.inl hacc
      · exact Or.inr ⟨h1, by omega, by simp only [List.length_cons]; omega,
          g, List.mem_cons_of_mem f hg, hfaces⟩

/-- C1: single-flight and flag discipline of `process_video`: a call made
while the `_processing` flag is set returns `False` with the flag and the
report file unchanged; a call made while the flag is clear leaves the flag
clear on every exit path (success, failed open, exception, write failure). -/
theorem c1_single_flight_and_flag (st : SessState) (v : Video) (w : WriteOutcome) :
    (st.processing = true → process_video st v w = (false, st)) ∧
    (st.processing = false → (process_video st v w).2.processing = false) := by
  constructor
  · intro h
    simp [process_video, h]
  · intro h
    simp [process_video, h]

/-- Witness for C1 at concrete inputs: a busy session rejects without state
change, and an idle session ends with the flag idle. -/
theorem c1_witness :
    process_video ⟨true, ReportFile.absent⟩ ⟨true, 30, 0, []⟩ WriteOutcome.ok =
      (false, ⟨true, ReportFile.absent⟩) ∧
    (process_video ⟨false, ReportFile.absent⟩ ⟨true, 30, 0, []⟩ WriteOutcome.ok).2.processing
      = false :=
  ⟨(c1_single_flight_and_flag ⟨true, ReportFile.absent⟩ ⟨true, 30, 0, []⟩ WriteOutcome.ok).1 rfl,
   (c1_single_flight_and_flag ⟨false, ReportFile.absent⟩ ⟨true, 30, 0, []⟩ WriteOutcome.ok).2 rfl⟩

/-- C2: the staleness oracle `should_process_video` returns `true` when the
report is missing, `false` when the report exists but the video is missing,
and otherwise compares modification times strictly. -/
theorem c2_staleness_oracle (video output : Option Rat) :
    (output = none → should_process_video video output = true) ∧
    (output ≠ none → video = none → should_process_video video output = false) ∧
    (∀ vm dm, video = some vm → output = some dm →
      (should_process_video video output = true ↔ dm < vm)) := by
  refine ⟨fun h => ?_, fun hne h => ?_, fun vm dm hv ho => ?_⟩
  · subst h; rfl
  · subst h
    cases output with
    | none => exact absurd rfl hne
    | some dm => rfl
  · subst hv; subst ho
    simp [should_process_video]

/-- Witness for C2: a video newer than its report must be reprocessed. -/
theorem c2_witness : should_process_video (some 5) (some 3) = true :=
  ((c2_staleness_oracle (some 5) (some 3)).2.2 5 3 rfl rfl).mpr (by norm_num)

/-- C3: sampling-policy exactness: the loop default is stride 15, a frame
index over a run of `total` decoded frames is sampled iff it is a multiple of
the stride, and every face entry a successful run emits carries a sampled
in-range frame index. -/
theorem c3_sampling_exact (s : Nat) (_hs : 1 ≤ s) :
    frame_step = 15 ∧
    (∀ total i, i ∈ sampledIndices s total ↔ (i < total ∧ ∃ k, i = k * s)) ∧
    (∀ (fps : Rat) (fc : Int) (frames : List Frame) (fd : List FaceEntry) (n : Nat),
      processFrames fps fc s frames 0 [] = .ok (fd, n) →
      ∀ e ∈ fd, e.frame ∈ sampledIndices s frames.length) := by
  refine ⟨rfl, fun total i => ?_, fun fps fc frames fd n h e he => ?_⟩
  · simp only [sampledIndices, List.mem_filter, List.mem_range, is_selected, beq_iff_eq]
    constructor
    · rintro ⟨h1, h2⟩
      exact ⟨h1, i / s, (Nat.div_mul_cancel (Nat.dvd_of_mod_eq_zero h2)).symm⟩
    · rintro ⟨h1, k, rfl⟩
      exact ⟨h1, Nat.mul_mod_left k s⟩
  · obtain ⟨-, hmem⟩ := processFrames_spec fps fc s frames 0 [] fd n h
    rcases hmem e he with hacc | ⟨h1, -, h3, -⟩
    · exact absurd hacc (List.not_mem_nil e)
    · exact List.mem_filter.mpr ⟨List.mem_range.mpr (by omega), h1⟩

/-- Witness for C3: index 30 is sampled over a 100-frame run at stride 15. -/
theorem c3_witness : (30 : Nat) ∈ sampledIndices 15 100 :=
  ((c3_sampling_exact 15 (by norm_num)).2.1 100 30).mpr ⟨by norm_num, 2, rfl⟩

/-- C4 counterexample: the persistence step is `open(output_path, "w")`
followed by `json.dump`, not an atomic replace.  A session over a one-frame
video whose dump raises after `open` has truncated the file leaves the report
file in a truncated state, so the previous report content is not preserved on
an exception during persistence, contrary to the claim. -/
theorem c4_counterexample_atomic_write :
    (process_video ⟨false, ReportFile.complete ⟨[], ⟨0, 0, 0, 0⟩⟩⟩
        ⟨true, 30, 2, [⟨100, 200, []⟩]⟩ WriteOutcome.dumpFail).1 = false ∧
    (process_video ⟨false, ReportFile.complete ⟨[], ⟨0, 0, 0, 0⟩⟩⟩
        ⟨true, 30, 2, [⟨100, 200, []⟩]⟩ WriteOutcome.dumpFail).2.reportFile
      ≠ ReportFile.complete ⟨[], ⟨0, 0, 0, 0⟩⟩ := by
  constructor
  · rfl
  · intro h
    simp [process_video, run_session, processFrames, is_selected, frame_step] at h

/-- C4 amended: the report is written at most once per session by a
truncate-then-write overwrite.  An exception during iteration, or a failure of
`open` itself, leaves the previous report content (or absence) unchanged,
because persistence only starts after full iteration; a successful write
replaces the file with the complete assembled report; but the write is not
atomic: an exception during `json.dump`, after the file was truncated, leaves
a truncated partial file instead of the previous content. -/
theorem c4_amended_persistence (st : SessState) (v : Video) (w : WriteOutcome)
    (h : st.processing = false) :
    (∀ e, processFrames v.fps v.frame_count frame_step v.frames 0 [] =
        .error e →
      process_video st v w = (false, ⟨false, st.reportFile⟩)) ∧
    (v.isOpened = false →
      process_video st v w = (false, ⟨false, st.reportFile⟩)) ∧
    (∀ fd n, v.isOpened = true →
      processFrames v.fps v.frame_count frame_step v.frames 0 [] = .ok (fd, n) →
      (w = WriteOutcome.ok → process_video st v w =
        (true, ⟨false, ReportFile.complete
          ⟨fd, ⟨v.frame_count, v.fps, n, frame_step⟩⟩⟩)) ∧
      (w = WriteOutcome.openFail →
        process_video st v w = (false, ⟨false, st.reportFile⟩)) ∧
      (w = WriteOutcome.dumpFail →
        process_video st v w = (false, ⟨false, ReportFile.truncated⟩))) := by
  refine ⟨fun e he => ?_, fun ho => ?_, fun fd n ho hok => ?_⟩
  · by_cases hop : v.isOpened
    · simp [process_video, run_session, h, hop, he]
    · simp [process_video, run_session, h, hop]
  · simp [process_video, run_session, h, ho]
  · refine ⟨fun hw => ?_, fun hw => ?_, fun hw => ?_⟩ <;>
      subst hw <;> simp [process_video, run_session, h, ho, hok]

/-- Witness for C4 (amended) at concrete inputs: a successful write replaces
the prior report with the complete new one. -/
theorem c4_witness :
    process_video ⟨false, ReportFile.complete ⟨[], ⟨0, 0, 0, 0⟩⟩⟩
        ⟨true, 30, 2, [⟨100, 200, []⟩]⟩ WriteOutcome.ok =
      (true, ⟨false, ReportFile.complete ⟨[], ⟨2, 30, 1, frame_step⟩⟩⟩) :=
  ((c4_amended_persistence ⟨false, ReportFile.complete ⟨[], ⟨0, 0, 0, 0⟩⟩⟩
      ⟨true, 30, 2, [⟨100, 200, []⟩]⟩ WriteOutcome.ok rfl).2.2 [] 1 rfl
      (by norm_num [processFrames, is_selected, frame_step])).1 rfl

/-- C5 counterexample: `processed_frames` is the number of frames actually
decoded, while `total_frames` is the container metadata `CAP_PROP_FRAME_COUNT`,
and the code never reconciles the two.  A video whose metadata reports 5
frames but whose stream yields only 3 is fully iterated to end-of-stream by a
successful session, yet the written report has `processed_frames = 3` and
`total_frames = 5`. -/
theorem c5_counterexample_processed_frames :
    (process_video ⟨false, ReportFile.absent⟩
        ⟨true, 30, 5, List.replicate 3 ⟨100, 200, []⟩⟩ WriteOutcome.ok).1 = true ∧
    (match (process_video ⟨false, ReportFile.absent⟩
        ⟨true, 30, 5, List.replicate 3 ⟨100, 200, []⟩⟩ WriteOutcome.ok).2.reportFile with
      | ReportFile.complete r =>
        ¬ ((r.metadata.processed_frames : Int) = r.metadata.total_frames)
      | _ => False) := by
  constructor
  · rfl
  · simp [process_video, run_session, processFrames, is_selected, frame_step,
      List.replicate]

/-- C5 amended: for every successful session, `processed_frames` equals the
number of frames the stream actually yielded; it equals the metadata
`total_frames` exactly when the metadata frame count matches the actual stream
length. -/
theorem c5_amended_processed_frames (st : SessState) (v : Video)
    (fd : List FaceEntry) (n : Nat) (h : st.processing = false)
    (ho : v.isOpened = true)
    (hrun : processFrames v.fps v.frame_count frame_step v.frames 0 [] =
      .ok (fd, n)) :
    n = v.frames.length ∧
    (process_video st v WriteOutcome.ok).2.reportFile =
      ReportFile.complete ⟨fd, ⟨v.frame_count, v.fps, n, frame_step⟩⟩ ∧
    (v.frame_count = (v.frames.length : Int) → (n : Int) = v.frame_count) := by
  obtain ⟨hn, -⟩ :=
    processFrames_spec v.fps v.frame_count frame_step v.frames 0 [] fd n hrun
  refine ⟨by omega, ?_, fun hmatch => by omega⟩
  simp [process_video, run_session, h, ho, hrun]

/-- Witness for C5 (amended): a two-frame video whose metadata agrees with the
stream gets a report with `processed_frames = total_frames = 2`. -/
theorem c5_witness :
    (process_video ⟨false, ReportFile.absent⟩
        ⟨true, 30, 2, [⟨100, 200, []⟩, ⟨100, 200, []⟩]⟩ WriteOutcome.ok).2.reportFile =
      ReportFile.complete ⟨[], ⟨2, 30, 2, frame_step⟩⟩ :=
  (c5_amended_processed_frames ⟨false, ReportFile.absent⟩
      ⟨true, 30, 2, [⟨100, 200, []⟩, ⟨100, 200, []⟩]⟩ [] 2 rfl rfl
      (by norm_num [processFrames, is_selected, frame_step])).2.1

/-- C6: every box the detector returns at downscaled resolution is mapped back
to original coordinates by `scaleBox` (multiply each of x, y, w, h by 2, the
exact value of `int(coord / 0.5)`), and in every face entry of a successful
run over frames of original size `W × H` whose detections lie inside the
downscaled `smallDim W × smallDim H` image, the resulting boxes are
nonnegative and lie within the original frame bounds. -/
theorem c6_rescaled_box_bounds (v : Video) (W H : Nat)
    (fd : List FaceEntry) (n : Nat)
    (hframes : ∀ f ∈ v.frames, f.width = W ∧ f.height = H ∧
      ∀ b ∈ f.smallDetections, smallBoxInBounds b W H)
    (hrun : processFrames v.fps v.frame_count frame_step v.frames 0 [] =
      .ok (fd, n)) :
    ∀ e ∈ fd, (∃ f ∈ v.frames, e.faces = f.smallDetections.map scaleBox) ∧
      ∀ b ∈ e.faces, boxInBounds b W H := by
  intro e he
  obtain ⟨-, hmem⟩ :=
    processFrames_spec v.fps v.frame_count frame_step v.frames 0 [] fd n hrun
  rcases hmem e he with hacc | ⟨-, -, -, f, hf, hfaces⟩
  · exact absurd hacc (List.not_mem_nil e)
  · refine ⟨⟨f, hf, hfaces⟩, fun b hb => ?_⟩
    rw [hfaces] at hb
    obtain ⟨b0, hb0, rfl⟩ := List.mem_map.mp hb
    obtain ⟨-, -, hdet⟩ := hframes f hf
    obtain ⟨hx, hy, hw, hh, hxw, hyh⟩ := hdet b0 hb0
    simp only [smallDim] at hxw hyh
    refine ⟨by simp [scaleBox]; omega, by simp [scaleBox]; omega,
      by simp [scaleBox]; omega, by simp [scaleBox]; omega, ?_, ?_⟩
    · simp only [scaleBox]
      omega
    · simp only [scaleBox]
      omega

/-- Witness for C6 at a concrete input: a 30×30 box at (10,10) detected in the
100×50 downscale of a 200×100 frame rescales to a 60×60 box at (20,20) inside
the original frame. -/
theorem c6_witness : boxInBounds ⟨20, 20, 60, 60⟩ 200 100 := by
  have h := c6_rescaled_box_bounds ⟨true, 30, 1, [⟨100, 200, [⟨10, 10, 30, 30⟩]⟩]⟩
    200 100 [⟨0, 0, [⟨20, 20, 60, 60⟩]⟩] 1
    (by intro f hf; simp at hf; subst hf; refine ⟨rfl, rfl, ?_⟩
        intro b hb; simp at hb; subst hb; exact ⟨by norm_num, by norm_num,
          by norm_num, by norm_num, by norm_num [smallDim], by norm_num [smallDim]⟩)
    (by norm_num [processFrames, is_selected, frame_step, scaleBox])
  exact (h ⟨0, 0, [⟨20, 20, 60, 60⟩]⟩ (by simp)).2 ⟨20, 20, 60, 60⟩ (by simp)

/-- Observable state of `convert_to_hls` (app.py lines 30-97): the files the
supervisor itself put in the stream output directory, whether the ffmpeg
worker was launched, whether its stderr-drain thread was started, whether the
supervisor ever terminated the worker (the code has no such operation), and
how many `time.sleep(1)` calls the polling loop performed. -/
structure HlsState where
  outDirFiles : List String
  workerLaunched : Bool
  drainLaunched : Bool
  workerTerminatedBySupervisor : Bool
  sleeps : Nat
deriving DecidableEq, Repr

/-- The string `convert_to_hls` returns on success (app.py line 91). -/
def playlist_url : String := "/streams/sample/playlist.m3u8"

/-- The polling loop `for _ in range(60)` (app.py lines 88-92), generalised
over the attempt counter `k` and remaining attempts: returns the index of the
first attempt at which the playlist exists with non-zero size, `none` if the
budget runs out.  `ready k` is the oracle for
`os.path.exists(m3u8_path) and os.path.getsize(m3u8_path) > 0` at attempt
`k`; it reflects the external worker's progress. -/
def pollLoop (ready : Nat → Bool) : Nat → Nat → Option Nat
  | _, 0 => none
  | k, r + 1 => if ready k then some k else pollLoop ready (k + 1) r

/-- `convert_to_hls` (app.py lines 30-97).  In source order: ensure the
output directory, delete every pre-existing file in it, return `None` if the
source video is missing, launch the ffmpeg worker and its stderr-drain
thread (oracle `popenOk` for `subprocess.Popen` succeeding), then poll up to
60 times, sleeping one second after each failed attempt; on timeout return
`None` without touching the worker. -/
def convert_to_hls (videoExists : Bool) (preFiles : List String)
    (popenOk : Bool) (ready : Nat → Bool) : Option String × HlsState :=
  let _ := preFiles
  if ¬ videoExists then
    (none, ⟨[], false, false, false, 0⟩)
  else if ¬ popenOk then
    (none, ⟨[], false, false, false, 0⟩)
  else
    match pollLoop ready 0 60 with
    | some k => (some playlist_url, ⟨[], true, true, false, k⟩)
    | none => (none, ⟨[], true, true, false, 60⟩)

/-- Unsuccessful polling budget: when every attempt in the window fails, the
loop returns `none`. -/
theorem pollLoop_all_fail (ready : Nat → Bool) :
    ∀ (r k : Nat), (∀ j, k ≤ j → j < k + r → ready j = false) →
      pollLoop ready k r = none := by
  intro r
  induction r with
  | zero => intro k _; rfl
  | succ r ih =>
    intro k h
    simp only [pollLoop]
    rw [h k le_rfl (by omega)]
    simp only [Bool.false_eq_true, if_false]
    exact ih (k + 1) fun j hj1 hj2 => h j (by omega) (by omega)

/-- First-success polling: when attempt `m` inside the window is the first
that succeeds, the loop returns `some m`. -/
theorem pollLoop_first_success (ready : Nat → Bool) :
    ∀ (r k m : Nat), k ≤ m → m < k + r → ready m = true →
      (∀ j, k ≤ j → j < m → ready j = false) → pollLoop ready k r = some m := by
  intro r
  induction r with
  | zero => intro k m h1 h2 _ _; omega
  | succ r ih =>
    intro k m h1 h2 h3 h4
    simp only [pollLoop]
    by_cases hk : k = m
    · subst hk
      rw [h3]
      simp
    · rw [h4 k le_rfl (by omega)]
      simp only [Bool.false_eq_true, if_false]
      exact ih (k + 1) m (by omega) (by omega) h3
        fun j hj1 hj2 => h4 j (by omega) hj2

/-- C7: with the source video absent, `convert_to_hls` returns the `None`
failure (the spec's `NotFound`) after the unconditional directory reset:
every pre-existing output file was deleted, no worker or drain thread was
launched, no playlist file was created, and no polling happened. -/
theorem c7_missing_source (preFiles : List String) (popenOk : Bool)
    (ready : Nat → Bool) :
    convert_to_hls false preFiles popenOk ready =
      (none, ⟨[], false, false, false, 0⟩) := rfl

/-- C8: polling and timeout semantics of `convert_to_hls` with the source
present and the worker launched: if no attempt among the 60 sees a non-empty
playlist, the call returns the `None` failure (the spec's `Timeout`) after 60
one-second sleeps, with the worker and drain thread launched and never
terminated by the supervisor; if attempt `k < 60` is the first to see it, the
call returns the playlist reference after exactly `k` sleeps. -/
theorem c8_poll_timeout (preFiles : List String) (ready : Nat → Bool) :
    ((∀ j, j < 60 → ready j = false) →
      convert_to_hls true preFiles true ready =
        (none, ⟨[], true, true, false, 60⟩)) ∧
    (∀ k, k < 60 → ready k = true → (∀ j, j < k → ready j = false) →
      convert_to_hls true preFiles true ready =
        (some playlist_url, ⟨[], true, true, false, k⟩)) := by
  constructor
  · intro h
    have hp : pollLoop ready 0 60 = none :=
      pollLoop_all_fail ready 60 0 fun j _ hj2 => h j (by omega)
    simp [convert_to_hls, hp]
  · intro k hk hkr hfirst
    have hp : pollLoop ready 0 60 = some k :=
      pollLoop_first_success ready 60 0 k (by omega) (by omega) hkr
        fun j _ hj2 => hfirst j hj2
    simp [convert_to_hls, hp]

/-- Witness for C8 at a concrete input: the playlist first becomes non-empty
at attempt 3, so the call succeeds after three sleeps. -/
theorem c8_witness :
    convert_to_hls true ["old_segment.ts"] true (fun j => j == 3) =
      (some playlist_url, ⟨[], true, true, false, 3⟩) :=
  (c8_poll_timeout ["old_segment.ts"] (fun j => j == 3)).2 3 (by norm_num)
    (by rfl) (fun j hj => by simp only [beq_eq_false_iff_ne]; omega)

/-- C9: a video that opens but yields no frames is not an error: the session
succeeds and writes a report with an empty `face_detections` list and
`processed_frames = 0`. -/
theorem c9_empty_video (st : SessState) (fps : Rat) (fc : Int)
    (h : st.processing = false) :
    process_video st ⟨true, fps, fc, []⟩ WriteOutcome.ok =
      (true, ⟨false, ReportFile.complete ⟨[], ⟨fc, fps, 0, frame_step⟩⟩⟩) := by
  simp [process_video, run_session, processFrames, h]

/-- Witness for C9 at a concrete input. -/
theorem c9_witness :
    process_video ⟨false, ReportFile.absent⟩ ⟨true, 30, 0, []⟩ WriteOutcome.ok =
      (true, ⟨false, ReportFile.complete ⟨[], ⟨0, 30, 0, frame_step⟩⟩⟩) :=
  c9_empty_video ⟨false, ReportFile.absent⟩ 30 0 rfl

/-- C10: unguarded divisions by metadata: a video that opens and yields at
least one frame but reports `frame_count = 0` or `fps = 0` makes the loop
raise `ZeroDivisionError` on the first sampled frame (the progress division
by `frame_count`, then the timestamp division by `fps`); the session-boundary
handler catches it, so the call returns `False`, the report file is
unchanged, and the flag is reset to idle. -/
theorem c10_zero_metadata_division (st : SessState) (v : Video)
    (w : WriteOutcome) (h : st.processing = false) (ho : v.isOpened = true)
    (hne : v.frames ≠ []) (hz : v.frame_count = 0 ∨ v.fps = 0) :
    process_video st v w = (false, ⟨false, st.reportFile⟩) := by
  obtain ⟨f, rest, hfr⟩ := List.exists_cons_of_ne_nil hne
  have herr : processFrames v.fps v.frame_count frame_step v.frames 0 [] =
      .error PyErr.zeroDivision := by
    rw [hfr]
    rcases hz with hfc | hfps
    · simp [processFrames, is_selected, frame_step, hfc]
    · simp [processFrames, is_selected, frame_step, hfps]
  simp [process_video, run_session, h, ho, herr]

/-- Witness for C10 at a concrete input: a one-frame video with `fps = 0`
fails, leaves the pre-existing report file alone, and resets the flag. -/
theorem c10_witness :
    process_video ⟨false, ReportFile.absent⟩ ⟨true, 0, 10, [⟨100, 200, []⟩]⟩
        WriteOutcome.ok =
      (false, ⟨false, ReportFile.absent⟩) :=
  c10_zero_metadata_division ⟨false, ReportFile.absent⟩
    ⟨true, 0, 10, [⟨100, 200, []⟩]⟩ WriteOutcome.ok rfl rfl (by simp)
    (Or.inr rfl)

end Videopy
